import Mathlib

/-!
Verification development for the volume-knobs plugin core
(`src/utils/volume-control.ts`): sink-handle helpers, the `wpctl status`
section matcher, the pid resolver with its cache, and the volume-control
facade.  External effects (shelling out to `wpctl` and `pidof`) are
modelled by an explicit environment; each operation returns its result
together with the list of `wpctl` invocations it issued, and the
resolver additionally threads the pid cache.  JS numbers are modelled as
`Int`/`ℚ`, with `Option` used where `NaN` can arise.
-/

namespace VolumeKnobs

/-- ASCII whitespace recognised by the JS `\s` class and `String.trim`
(the Unicode space characters never occur in the tool output we model). -/
def isJsSpace (c : Char) : Bool :=
  c = ' ' || c = '\t' || c = '\n' || c = '\r' || c = '\x0b' || c = '\x0c'

/-- Word characters of the JS regex `\w` / `\b` classes: `[A-Za-z0-9_]`. -/
def isWordChar (c : Char) : Bool :=
  ('A' ≤ c && c ≤ 'Z') || ('a' ≤ c && c ≤ 'z') || c.isDigit || c = '_'

/-- Value of a list of decimal digit characters. -/
def digitsToNat (ds : List Char) : Nat :=
  ds.foldl (fun a c => a * 10 + (c.toNat - '0'.toNat)) 0

/-- Decimal digits of a positive numeral, via fuel (most significant first). -/
def natStrAux : Nat → Nat → List Char
  | 0, _ => []
  | _ + 1, 0 => []
  | fuel + 1, n + 1 =>
      natStrAux fuel ((n + 1) / 10) ++ [Char.ofNat ('0'.toNat + (n + 1) % 10)]

/-- Decimal rendering of a `Nat`, as JS template interpolation prints it. -/
def natStr (n : Nat) : String :=
  if n = 0 then "0" else String.mk (natStrAux (n + 1) n)

/-- Decimal rendering of an `Int`, as JS template interpolation prints it. -/
def intStr (p : Int) : String :=
  match p with
  | .ofNat n => natStr n
  | .negSucc n => "-" ++ natStr (n + 1)

/-- JS `parseInt(s, 10)`: skip leading whitespace, optional sign, then the
maximal run of decimal digits; `none` models `NaN` (no digits). -/
def parseIntJS (s : String) : Option Int :=
  let cs := s.data.dropWhile isJsSpace
  match cs with
  | '-' :: t =>
      let ds := t.takeWhile Char.isDigit
      if ds = [] then none else some (-(digitsToNat ds : Int))
  | '+' :: t =>
      let ds := t.takeWhile Char.isDigit
      if ds = [] then none else some (digitsToNat ds : Int)
  | _ =>
      let ds := cs.takeWhile Char.isDigit
      if ds = [] then none else some (digitsToNat ds : Int)

/-- JS `parseFloat` restricted to the tokens the code feeds it (captured by
the regex class `[\d.]+`, so only digits and dots): an integer part, an
optional dot, then a fractional part, stopping at any second dot; `none`
models `NaN` (no digit before the cut-off).  The exact value
`int + frac / 10 ^ k` is built with a single `mkRat`. -/
def parseFloatJS (cs : List Char) : Option ℚ :=
  let intPart := cs.takeWhile Char.isDigit
  let rest := cs.drop intPart.length
  let fracPart :=
    match rest with
    | '.' :: r => r.takeWhile Char.isDigit
    | _ => []
  if intPart = [] ∧ fracPart = [] then none
  else some (mkRat (digitsToNat intPart * 10 ^ fracPart.length + digitsToNat fracPart)
                   (10 ^ fracPart.length))

/-- JS `String.prototype.trim`. -/
def trimJS (s : String) : String :=
  String.mk (((s.data.dropWhile isJsSpace).reverse.dropWhile isJsSpace).reverse)

/-- Substring containment, as JS `String.prototype.includes`. -/
def listContains (pat : List Char) : List Char → Bool
  | [] => pat.isPrefixOf []
  | c :: cs => pat.isPrefixOf (c :: cs) || listContains pat cs

/-- JS `s.includes(pat)` on strings. -/
def containsStr (s pat : String) : Bool :=
  listContains pat.data s.data

/-- JS `"x\ny".split("\n")`, one-pass accumulator version. -/
def splitLinesGo (cur : List Char) : List Char → List String
  | [] => [String.mk cur.reverse]
  | c :: cs => if c = '\n' then String.mk cur.reverse :: splitLinesGo [] cs
               else splitLinesGo (c :: cur) cs

/-- JS `output.split("\n")`. -/
def splitLines (s : String) : List String :=
  splitLinesGo [] s.data

/-- Whitespace-separated tokens of a string, as JS `s.split(/\s+/)` followed
by the code's `filter(pid => pid.length > 0)` (the split of a trimmed string
produces no other empty fields). -/
def wsTokensGo (cur : List Char) : List Char → List (List Char)
  | [] => if cur = [] then [] else [cur.reverse]
  | c :: cs =>
      if isJsSpace c then
        if cur = [] then wsTokensGo [] cs else cur.reverse :: wsTokensGo [] cs
      else wsTokensGo (c :: cur) cs

/-- True when `prev` (the character left of a match position) allows a JS
`\b` word boundary. -/
def boundaryOkB : Option Char → Bool
  | none => true
  | some c => !isWordChar c

/-- True when the characters after a match allow a JS `\b` word boundary. -/
def afterOkB : List Char → Bool
  | [] => true
  | c :: _ => !isWordChar c

/-- Scan for an occurrence of `w` flanked by `\b` word boundaries, carrying
the previous character; implements the JS test `new RegExp("\\b" + w + "\\b").test(line)`
for a word `w` made of word characters. -/
def hasWholeWordAux (w : List Char) (prev : Option Char) : List Char → Bool
  | [] => false
  | c :: cs =>
      (boundaryOkB prev && w.isPrefixOf (c :: cs) && afterOkB ((c :: cs).drop w.length))
        || hasWholeWordAux w (some c) cs

/-- JS whole-word regex test `\b w \b` on a line. -/
def hasWholeWord (w l : List Char) : Bool :=
  hasWholeWordAux w none l

/-- The JS test `/^\s*[A-Z]/.test(line)`: optional leading whitespace then
an ASCII capital letter. -/
def startsUpperAfterSpaces (line : String) : Bool :=
  match line.data.dropWhile isJsSpace with
  | [] => false
  | c :: _ => 'A' ≤ c && c ≤ 'Z'

/-- Line loop of `findMatchingPidInWpctl`, carrying the two section flags
`inClients` / `inSinkInputs`.  Branches, in source order: a line mentioning
`"Clients:"` (resp. `"Sink Inputs:"`) enters that section; while inside a
section, a line of the shape `/^\s*[A-Z]/` not mentioning `"Clients"` or
`"Sink Inputs"` leaves both sections; while inside a section, the first
candidate pid appearing as a `\b`-delimited whole word in the line is
returned. -/
def findMatchingAux (pids : List Int) (inC inS : Bool) : List String → Option Int
  | [] => none
  | line :: rest =>
      if containsStr line "Clients:" then findMatchingAux pids true false rest
      else if containsStr line "Sink Inputs:" then findMatchingAux pids false true rest
      else if (inC || inS) && startsUpperAfterSpaces line
              && !containsStr line "Clients" && !containsStr line "Sink Inputs" then
        findMatchingAux pids false false rest
      else if inC || inS then
        match pids.find? (fun pid => hasWholeWord (intStr pid).data line.data) with
        | some pid => some pid
        | none => findMatchingAux pids inC inS rest
      else findMatchingAux pids inC inS rest

/-- `findMatchingPidInWpctl(pids, wpctlOutput)`: the pid that matches an
entry of the `wpctl status` output, scanning the Clients and Sink Inputs
sections, or `null`. -/
def findMatchingPidInWpctl (pids : List Int) (wpctlOutput : String) : Option Int :=
  findMatchingAux pids false false (splitLines wpctlOutput)

/-- External world of the module: `wpctl <args>` behaviour (raw stdout of a
successful run, before the code's `trim`) and `pidof <name>` behaviour
(`none` models the exit-code-1 "no processes" outcome; the model environment
always lets the external binaries run, so the `ExternalToolError` /
`ToolNotInstalledError` paths of `execWpctl` are out of scope here). -/
structure Env where
  wpctl : String → String
  pidofOut : String → Option String

/-- `execWpctl(command)`: runs `wpctl <command>` and yields the trimmed
stdout.  In theorems the argument string is also recorded as one entry of
the operation's invocation trace. -/
def execWpctlOut (env : Env) (command : String) : String :=
  trimJS (env.wpctl command)

/-- Error taxonomy of the module: one constructor per distinct throw site,
carrying the thrown message (§7 names: `UnsupportedOperationError`,
`ParseError`, `ApplicationNotFoundError`, `ApplicationNotPlayingError`,
`ConfigurationError`; `invalidSinkId` is the `extractPid` throw). -/
inductive VCErr where
  | unsupportedOperation (msg : String)
  | parseError (msg : String)
  | invalidSinkId (sinkId : String)
  | applicationNotFound (appName : String)
  | applicationNotPlaying (appName : String)
  | configurationError (msg : String)
deriving DecidableEq, Repr

/-- `isDefaultSink(sinkId)`. -/
def isDefaultSink (sinkId : String) : Bool :=
  sinkId = "@DEFAULT_AUDIO_SINK@"

/-- `isPidBased(sinkId)`: `sinkId.startsWith("PID:")`. -/
def isPidBased (sinkId : String) : Bool :=
  "PID:".data.isPrefixOf sinkId.data

/-- `extractPid(sinkId)`: `parseInt(sinkId.substring(4), 10)`, `none` for
the `NaN` case in which the source throws. -/
def extractPid (sinkId : String) : Option Int :=
  parseIntJS (String.mk (sinkId.data.drop 4))

/-- `getApplicationPids(appName)`: tokens of the trimmed `pidof` stdout,
parsed with `parseInt` and filtered of `NaN`s; `[]` when `pidof` finds no
process. -/
def getApplicationPids (env : Env) (appName : String) : List Int :=
  match env.pidofOut appName with
  | none => []
  | some stdout =>
      ((wsTokensGo [] (trimJS stdout).data).map String.mk).filterMap parseIntJS

/-- `verifyPidInWpctl(pid)`: one `wpctl status` call, then a single-candidate
match.  Returns the verdict together with the invocation trace. -/
def verifyPidInWpctl (env : Env) (pid : Int) : Bool × List String :=
  ((findMatchingPidInWpctl [pid] (execWpctlOut env "status")).isSome, ["status"])

/-- `getDefaultSink()`. -/
def getDefaultSink : String :=
  "@DEFAULT_AUDIO_SINK@"

/-- The pid cache (`pidCache : Map<string, number>`), application name to
last known-good pid. -/
abbrev PidCache := List (String × Int)

/-- `pidCache.get(k)` (with `has` expressed as `isSome`). -/
def cacheGet (cache : PidCache) (k : String) : Option Int :=
  match cache.find? (fun e => e.1 = k) with
  | some e => some e.2
  | none => none

/-- `pidCache.set(k, v)`: overwrite the entry for `k`, or append a new one. -/
def cacheSet (cache : PidCache) (k : String) (v : Int) : PidCache :=
  if (cache.find? (fun e => e.1 = k)).isSome then
    cache.map (fun e => if e.1 = k then (k, v) else e)
  else cache ++ [(k, v)]

/-- `pidCache.delete(k)`. -/
def cacheDel (cache : PidCache) (k : String) : PidCache :=
  cache.filter (fun e => ¬ e.1 = k)

/-- The part of `getApplicationSink` after the cache block: enumerate pids
with `pidof`, fail `ApplicationNotFoundError` when none, otherwise match
them against one `wpctl status` report, failing `ApplicationNotPlayingError`
on no match and caching the matching pid on success. -/
def getApplicationSinkFresh (env : Env) (cache : PidCache) (appName : String) :
    Except VCErr String × PidCache × List String :=
  let pids := getApplicationPids env appName
  if pids = [] then
    (.error (.applicationNotFound ("Application \"" ++ appName ++ "\" not found (no running processes)")),
     cache, [])
  else
    let wpctlOutput := execWpctlOut env "status"
    match findMatchingPidInWpctl pids wpctlOutput with
    | none =>
        (.error (.applicationNotPlaying ("Application \"" ++ appName ++ "\" is not currently using audio")),
         cache, ["status"])
    | some matchingPid =>
        (.ok ("PID:" ++ intStr matchingPid), cacheSet cache appName matchingPid, ["status"])

/-- `getApplicationSink(appName)`: cached pid re-validated against
`wpctl status` first (returning it while valid, evicting it when stale),
then the fresh enumeration-and-match cycle.  Result, updated cache, and
`wpctl` invocation trace. -/
def getApplicationSink (env : Env) (cache : PidCache) (appName : String) :
    Except VCErr String × PidCache × List String :=
  match cacheGet cache appName with
  | some cachedPid =>
      if (verifyPidInWpctl env cachedPid).1 then
        (.ok ("PID:" ++ intStr cachedPid), cache, ["status"])
      else
        let res := getApplicationSinkFresh env (cacheDel cache appName) appName
        (res.1, res.2.1, "status" :: res.2.2)
  | none => getApplicationSinkFresh env cache appName

/-- The fixed two-decimal rendering `(n / 100).toFixed(2)` of an integral
percentage `n ∈ [0, 100]` (the only values the source feeds it). -/
def formatFrac2 (n : Nat) : String :=
  natStr (n / 100) ++ "." ++ (if n % 100 < 10 then "0" else "") ++ natStr (n % 100)

/-- JS `Math.round` on the exact rational value: half-up rounding. -/
def jsRound (q : ℚ) : Int :=
  ⌊q + 1 / 2⌋

/-- The `Volume:\s*([\d.]+)` regex capture of `getVolume`: at each position,
a literal `Volume:` followed by optional whitespace and a nonempty run of
digits/dots; on a failed continuation the search resumes one character
later, as the regex engine does. -/
def volTokenAux : List Char → Option (List Char)
  | [] => none
  | c :: cs =>
      if "Volume:".data.isPrefixOf (c :: cs) then
        let rest := ((c :: cs).drop 7).dropWhile isJsSpace
        let tok := rest.takeWhile (fun ch => ch.isDigit || ch = '.')
        if tok = [] then volTokenAux cs else some tok
      else volTokenAux cs

/-- First `Volume: <fraction>` capture of an output string, or `none`. -/
def volToken (output : String) : Option (List Char) :=
  volTokenAux output.data

/-- `getVolume(sinkId)`: rejects PID-based sinks before any invocation;
otherwise runs `wpctl get-volume <sinkId>`, captures the fraction,
scales by 100, rounds, and clamps into `[0, 100]`.  `ok none` models the
JS `NaN` result when the captured token has no digit; the catch-and-rethrow
wrapper of the source only rewraps the message, so error kinds are kept. -/
def getVolume (env : Env) (sinkId : String) : Except VCErr (Option Int) × List String :=
  if isPidBased sinkId then
    (.error (.unsupportedOperation
      "Cannot get volume for application-specific sinks. Use incremental volume changes instead."), [])
  else
    let output := execWpctlOut env ("get-volume " ++ sinkId)
    match volToken output with
    | none => (.error (.parseError ("Could not parse volume from: " ++ output)),
               ["get-volume " ++ sinkId])
    | some tok =>
        match parseFloatJS tok with
        | none => (.ok none, ["get-volume " ++ sinkId])
        | some volume =>
            let percentage : Int := min (jsRound (volume * 100)) 100
            (.ok (some (max 0 percentage)), ["get-volume " ++ sinkId])

/-- `setVolume(sinkId, percentage)`: clamp into `[0, 100]`, reject PID-based
sinks, otherwise issue one absolute `wpctl set-volume` with the two-decimal
fraction.  `none` as percentage models a `NaN` input (whose clamp stays
`NaN` and prints as `"NaN"`); all source call sites pass integers. -/
def setVolume (env : Env) (sinkId : String) (percentage : Option Int) :
    Except VCErr Unit × List String :=
  let clampedPercentage := percentage.map (fun p => max 0 (min 100 p))
  if isPidBased sinkId then
    (.error (.unsupportedOperation
      "Cannot set absolute volume for application-specific sinks. Use incremental volume changes (adjustVolume) instead."), [])
  else
    let volStr := match clampedPercentage with
      | none => "NaN"
      | some p => formatFrac2 p.toNat
    (.ok (), ["set-volume " ++ sinkId ++ " " ++ volStr])

/-- `toggleMute(sinkId)`: one `wpctl set-mute ... toggle`, scoped with
`--pid` for PID-based sinks; an unparsable PID identifier throws before any
invocation. -/
def toggleMute (env : Env) (sinkId : String) : Except VCErr Unit × List String :=
  if isPidBased sinkId then
    match extractPid sinkId with
    | none => (.error (.invalidSinkId ("Invalid PID-based sink identifier: " ++ sinkId)), [])
    | some pid => (.ok (), ["set-mute --pid " ++ intStr pid ++ " toggle"])
  else
    (.ok (), ["set-mute " ++ sinkId ++ " toggle"])

/-- `getMuteState(sinkId)`: rejects PID-based sinks before any invocation;
otherwise one `wpctl get-volume` and a `[MUTED]` marker test. -/
def getMuteState (env : Env) (sinkId : String) : Except VCErr Bool × List String :=
  if isPidBased sinkId then
    (.error (.unsupportedOperation "Cannot get mute state for application-specific sinks."), [])
  else
    (.ok (containsStr (execWpctlOut env ("get-volume " ++ sinkId)) "[MUTED]"),
     ["get-volume " ++ sinkId])

/-- `adjustVolume(sinkId, deltaPercentage)`.  PID-based sinks: a single
blind `wpctl set-volume --pid <pid> 0.0<|delta|><sign>` invocation (note the
hard-coded `"0.0"` prefix of the source).  Default sink: read the current
volume, clamp `current + delta` into `[0, 100]`, and set it absolutely. -/
def adjustVolume (env : Env) (sinkId : String) (deltaPercentage : Int) :
    Except VCErr Unit × List String :=
  if isPidBased sinkId then
    match extractPid sinkId with
    | none => (.error (.invalidSinkId ("Invalid PID-based sink identifier: " ++ sinkId)), [])
    | some pid =>
        let absDelta := deltaPercentage.natAbs
        let sign := if 0 ≤ deltaPercentage then "+" else "-"
        (.ok (), ["set-volume --pid " ++ intStr pid ++ " 0.0" ++ natStr absDelta ++ sign])
  else
    match (getVolume env sinkId).1 with
    | .error e => (.error e, (getVolume env sinkId).2)
    | .ok currentVolume =>
        let newVolume := currentVolume.map (fun c => max 0 (min 100 (c + deltaPercentage)))
        ((setVolume env sinkId newVolume).1,
         (getVolume env sinkId).2 ++ (setVolume env sinkId newVolume).2)

/-- `getSinkId(controlMode, appName)`: `@DEFAULT_AUDIO_SINK@` for system
mode; otherwise requires a (JS-truthy, hence nonempty) application name and
resolves it through `getApplicationSink`. -/
def getSinkId (env : Env) (cache : PidCache) (controlMode : String) (appName : Option String) :
    Except VCErr String × PidCache × List String :=
  if controlMode = "system" then
    (.ok getDefaultSink, cache, [])
  else
    match appName with
    | none =>
        (.error (.configurationError "Application name is required when control mode is 'application'"),
         cache, [])
    | some n =>
        if n = "" then
          (.error (.configurationError "Application name is required when control mode is 'application'"),
           cache, [])
        else getApplicationSink env cache n

/-- Inverse of the two-decimal rendering: a fraction string whose value is
an exact whole number of hundredths. -/
def parseFrac2 (s : String) : Option Nat :=
  match parseFloatJS s.data with
  | none => none
  | some q =>
      if 0 ≤ q.num ∧ (100 * q.num) % (q.den : Int) = 0 then
        some ((100 * q.num) / (q.den : Int)).toNat
      else none

/-- Modelled from the spec: the §6 external audio-control command contract
for the default sink (the tool binary itself is not part of the repository).
State is the default sink's volume in hundredths of full scale;
`get-volume <symbolic-default-token>` reports `Volume: <fraction>` and an
absolute `set-volume <symbolic-default-token> <fraction>` stores the
fraction exactly.  Mute and pid-scoped commands leave this state alone. -/
def toolRun (st : Nat) (cmd : String) : Nat × String :=
  if cmd = "get-volume @DEFAULT_AUDIO_SINK@" then
    (st, "Volume: " ++ formatFrac2 st)
  else if "set-volume @DEFAULT_AUDIO_SINK@ ".data.isPrefixOf cmd.data then
    match parseFrac2 (String.mk (cmd.data.drop 32)) with
    | some n => (n, "")
    | none => (st, "")
  else (st, "")

/-- Modelled from the spec: a §6-conforming environment whose default sink
currently sits at `st` hundredths. -/
def toolEnv (st : Nat) : Env :=
  ⟨fun cmd => (toolRun st cmd).2, fun _ => none⟩

/-- Modelled from the spec: the tool state after a sequence of commands. -/
def runCmds (st : Nat) : List String → Nat
  | [] => st
  | c :: cs => runCmds (toolRun st c).1 cs

/-- Result alternatives of the five facade operations. -/
inductive FacadeResult where
  | vol (v : Option Int)
  | mute (b : Bool)
  | done
deriving DecidableEq, Repr

/-- One call into the Volume Control Facade. -/
inductive FacadeOp where
  | opGetVolume (sinkId : String)
  | opSetVolume (sinkId : String) (percentage : Option Int)
  | opGetMuteState (sinkId : String)
  | opToggleMute (sinkId : String)
  | opAdjustVolume (sinkId : String) (delta : Int)

/-- Run one facade operation against the module state (the pid cache),
returning its result, the cache afterwards, and the `wpctl` invocation
trace.  The five source functions never reference `pidCache`, which this
runner makes explicit by threading the cache through each call. -/
def runFacadeOp (env : Env) (cache : PidCache) :
    FacadeOp → Except VCErr FacadeResult × PidCache × List String
  | .opGetVolume s =>
      ((getVolume env s).1.map FacadeResult.vol, cache, (getVolume env s).2)
  | .opSetVolume s p =>
      ((setVolume env s p).1.map (fun _ => FacadeResult.done), cache, (setVolume env s p).2)
  | .opGetMuteState s =>
      ((getMuteState env s).1.map FacadeResult.mute, cache, (getMuteState env s).2)
  | .opToggleMute s =>
      ((toggleMute env s).1.map (fun _ => FacadeResult.done), cache, (toggleMute env s).2)
  | .opAdjustVolume s d =>
      ((adjustVolume env s d).1.map (fun _ => FacadeResult.done), cache, (adjustVolume env s d).2)

/-! Helper lemmas. -/

theorem clamp_clamp (x : Int) : max 0 (min 100 (max 0 (min 100 x))) = max 0 (min 100 x) := by
  omega

theorem getVolume_snd (env : Env) (sinkId : String) (h : isPidBased sinkId = false) :
    (getVolume env sinkId).2 = ["get-volume " ++ sinkId] := by
  simp only [getVolume, h, Bool.false_eq_true, if_false]
  split
  · rfl
  · split <;> rfl

theorem cacheGet_cacheDel (cache : PidCache) (k : String) :
    cacheGet (cacheDel cache k) k = none := by
  induction cache with
  | nil => rfl
  | cons e t ih =>
      by_cases h : e.1 = k
      · simpa [cacheDel, cacheGet, List.filter_cons, h] using ih
      · simpa [cacheDel, cacheGet, List.filter_cons, List.find?_cons, h] using ih

theorem getVolume_eval (env : Env) (sinkId : String) (tok : List Char) (q : ℚ) (r : Int)
    (hp : isPidBased sinkId = false)
    (htok : volToken (execWpctlOut env ("get-volume " ++ sinkId)) = some tok)
    (hpf : parseFloatJS tok = some q)
    (hr : max 0 (min (jsRound (q * 100)) 100) = r) :
    getVolume env sinkId = (.ok (some r), ["get-volume " ++ sinkId]) := by
  simp only [getVolume, hp, Bool.false_eq_true, if_false, htok, hpf, hr]

/-! Claim theorems. -/

/-- C4: `setVolume(DefaultSink, 42)` writes exactly the absolute fraction
`0.42`; running that command against the §6 tool contract leaves the sink
at 42 hundredths, and a subsequent `getVolume(DefaultSink)` parses, scales
and rounds that report back to exactly `42`. -/
theorem vc_C4 :
    setVolume (toolEnv 0) "@DEFAULT_AUDIO_SINK@" (some 42) =
      (.ok (), ["set-volume @DEFAULT_AUDIO_SINK@ 0.42"]) ∧
    runCmds 0 (setVolume (toolEnv 0) "@DEFAULT_AUDIO_SINK@" (some 42)).2 = 42 ∧
    getVolume (toolEnv 42) "@DEFAULT_AUDIO_SINK@" =
      (.ok (some 42), ["get-volume @DEFAULT_AUDIO_SINK@"]) := by
  refine ⟨rfl, by decide, ?_⟩
  exact getVolume_eval (toolEnv 42) "@DEFAULT_AUDIO_SINK@" "0.42".data (mkRat 42 100) 42
    (by decide) (by decide) (by decide)
    (by norm_num [jsRound, Rat.mkRat_eq_div])

/-- C7: on any PID-based sink handle, `getVolume`, `setVolume` and
`getMuteState` fail with the unsupported-operation error regardless of the
input, issuing no external invocation at all (empty trace). -/
theorem vc_C7 (env : Env) (sinkId : String) (p : Option Int)
    (h : isPidBased sinkId = true) :
    getVolume env sinkId =
      (.error (.unsupportedOperation
        "Cannot get volume for application-specific sinks. Use incremental volume changes instead."), []) ∧
    setVolume env sinkId p =
      (.error (.unsupportedOperation
        "Cannot set absolute volume for application-specific sinks. Use incremental volume changes (adjustVolume) instead."), []) ∧
    getMuteState env sinkId =
      (.error (.unsupportedOperation "Cannot get mute state for application-specific sinks."), []) := by
  refine ⟨?_, ?_, ?_⟩ <;> simp [getVolume, setVolume, getMuteState, h]

/-- Witness for C7 at the concrete handle `PID:1234` with input `50`. -/
theorem vc_C7_witness :
    getVolume (toolEnv 0) "PID:1234" =
      (.error (.unsupportedOperation
        "Cannot get volume for application-specific sinks. Use incremental volume changes instead."), []) ∧
    setVolume (toolEnv 0) "PID:1234" (some 50) =
      (.error (.unsupportedOperation
        "Cannot set absolute volume for application-specific sinks. Use incremental volume changes (adjustVolume) instead."), []) ∧
    getMuteState (toolEnv 0) "PID:1234" =
      (.error (.unsupportedOperation "Cannot get mute state for application-specific sinks."), []) :=
  vc_C7 (toolEnv 0) "PID:1234" (some 50) (by decide)

/-- C9: no facade operation mutates the resolution cache: for every
environment, cache and operation, the cache after the call is the cache
before it. -/
theorem vc_C9 (env : Env) (cache : PidCache) (op : FacadeOp) :
    (runFacadeOp env cache op).2.1 = cache := by
  cases op <;> rfl

/-- C10 counterexample: the identifier `PID:+12` starts with `PID:` and its
remainder `+12` does not begin with a decimal digit, yet `toggleMute` and
`adjustVolume` do not fail — `parseInt` accepts the sign and both
operations proceed with pid 12, issuing an external invocation. -/
theorem vc_C10_counterexample :
    isPidBased "PID:+12" = true ∧
    ("PID:+12".data.drop 4).head? = some '+' ∧
    Char.isDigit '+' = false ∧
    toggleMute (toolEnv 0) "PID:+12" = (.ok (), ["set-mute --pid 12 toggle"]) ∧
    adjustVolume (toolEnv 0) "PID:+12" 5 = (.ok (), ["set-volume --pid 12 0.05+"]) :=
  ⟨rfl, rfl, rfl, rfl, rfl⟩

/-- C10 (amended): for every `PID:`-prefixed sink identifier, `toggleMute`
and `adjustVolume` fail with the invalid-identifier error before any
external invocation exactly when JS `parseInt` of the remainder is `NaN`
(no decimal digits after optionally skipping leading whitespace and one
sign character, e.g. `PID:abc`); whenever `parseInt` yields a number —
leading digits with trailing garbage (`PID:12abc` → 12), but equally a
signed or whitespace-led remainder (`PID:+12`, `PID: 12` → 12,
`PID:-5` → -5) — that value is silently accepted as the pid and the
operation proceeds. -/
theorem vc_C10 (env : Env) (sinkId : String) (d : Int)
    (hpid : isPidBased sinkId = true) :
    (extractPid sinkId = none →
      toggleMute env sinkId =
        (.error (.invalidSinkId ("Invalid PID-based sink identifier: " ++ sinkId)), []) ∧
      adjustVolume env sinkId d =
        (.error (.invalidSinkId ("Invalid PID-based sink identifier: " ++ sinkId)), [])) ∧
    (∀ pid : Int, extractPid sinkId = some pid →
      toggleMute env sinkId = (.ok (), ["set-mute --pid " ++ intStr pid ++ " toggle"]) ∧
      adjustVolume env sinkId d =
        (.ok (), ["set-volume --pid " ++ intStr pid ++ " 0.0" ++ natStr d.natAbs
                  ++ (if 0 ≤ d then "+" else "-")])) ∧
    extractPid "PID:abc" = none ∧
    extractPid "PID:12abc" = some 12 ∧
    extractPid "PID:+12" = some 12 ∧
    extractPid "PID: 12" = some 12 ∧
    extractPid "PID:-5" = some (-5) := by
  refine ⟨?_, ?_, by decide, by decide, by decide, by decide, by decide⟩
  · intro hnone
    constructor
    · simp [toggleMute, hpid, hnone]
    · simp [adjustVolume, hpid, hnone]
  · intro pid hsome
    constructor
    · simp [toggleMute, hpid, hsome]
    · simp [adjustVolume, hpid, hsome]

/-- Witness for C10 at both branches: `PID:abc` fails before any
invocation, `PID:+12` proceeds as pid 12. -/
theorem vc_C10_witness :
    (toggleMute (toolEnv 0) "PID:abc" =
       (.error (.invalidSinkId "Invalid PID-based sink identifier: PID:abc"), []) ∧
     adjustVolume (toolEnv 0) "PID:abc" 5 =
       (.error (.invalidSinkId "Invalid PID-based sink identifier: PID:abc"), [])) ∧
    (toggleMute (toolEnv 0) "PID:+12" = (.ok (), ["set-mute --pid 12 toggle"]) ∧
     adjustVolume (toolEnv 0) "PID:+12" 5 = (.ok (), ["set-volume --pid 12 0.05+"])) :=
  ⟨(vc_C10 (toolEnv 0) "PID:abc" 5 (by decide)).1 (by decide),
   (vc_C10 (toolEnv 0) "PID:+12" 5 (by decide)).2.1 12 (by decide)⟩

/-- C5: application-mode resolution writes no cache entry on failure: for a
name without a cache entry, zero enumerated pids fail with the
application-not-found error, and a nonempty enumeration none of whose pids
matches the status report fails with the application-not-playing error; in
both cases the cache is returned unchanged. -/
theorem vc_C5 (env : Env) (cache : PidCache) (appName : String)
    (hmiss : cacheGet cache appName = none) :
    (getApplicationPids env appName = [] →
      getApplicationSink env cache appName =
        (.error (.applicationNotFound
          ("Application \"" ++ appName ++ "\" not found (no running processes)")), cache, [])) ∧
    (getApplicationPids env appName ≠ [] →
      findMatchingPidInWpctl (getApplicationPids env appName) (execWpctlOut env "status") = none →
      getApplicationSink env cache appName =
        (.error (.applicationNotPlaying
          ("Application \"" ++ appName ++ "\" is not currently using audio")), cache, ["status"])) := by
  constructor
  · intro hp
    simp [getApplicationSink, hmiss, getApplicationSinkFresh, hp]
  · intro hp hm
    simp [getApplicationSink, hmiss, getApplicationSinkFresh, hp, hm]

/-- Witness for C5: one environment with no running process, one whose sole
pid 999 is absent from the (empty) status report; the never-seen name has no
entry afterwards in either case. -/
theorem vc_C5_witness :
    getApplicationSink (⟨fun _ => "", fun _ => none⟩ : Env) [] "music" =
      (.error (.applicationNotFound "Application \"music\" not found (no running processes)"), [], []) ∧
    getApplicationSink (⟨fun _ => "", fun _ => some "999"⟩ : Env) [] "music" =
      (.error (.applicationNotPlaying "Application \"music\" is not currently using audio"), [], ["status"]) :=
  ⟨(vc_C5 (⟨fun _ => "", fun _ => none⟩ : Env) [] "music" rfl).1 (by decide),
   (vc_C5 (⟨fun _ => "", fun _ => some "999"⟩ : Env) [] "music" rfl).2 (by decide) (by decide)⟩

/-- C6: a cached pid that no longer appears in the status report is evicted
and the resolution proceeds with the fresh enumeration-and-match cycle: the
whole call behaves exactly like a resolution started on the evicted cache,
prefixed by the one `status` read that detected staleness. -/
theorem vc_C6 (env : Env) (cache : PidCache) (appName : String) (pid : Int)
    (hc : cacheGet cache appName = some pid)
    (hstale : findMatchingPidInWpctl [pid] (execWpctlOut env "status") = none) :
    getApplicationSink env cache appName =
      ((getApplicationSink env (cacheDel cache appName) appName).1,
       (getApplicationSink env (cacheDel cache appName) appName).2.1,
       "status" :: (getApplicationSink env (cacheDel cache appName) appName).2.2) := by
  have hdel : cacheGet (cacheDel cache appName) appName = none := cacheGet_cacheDel cache appName
  simp [getApplicationSink, hc, hdel, verifyPidInWpctl, hstale]

/-- Witness for C6: the cached pid 555 for `music` is not in the report, the
fresh cycle then finds and caches pid 777. -/
theorem vc_C6_witness :
    getApplicationSink (⟨fun _ => "Clients:\n pid 777 z", fun _ => some "777"⟩ : Env)
        [("music", 555)] "music" =
      ((getApplicationSink (⟨fun _ => "Clients:\n pid 777 z", fun _ => some "777"⟩ : Env)
          (cacheDel [("music", 555)] "music") "music").1,
       (getApplicationSink (⟨fun _ => "Clients:\n pid 777 z", fun _ => some "777"⟩ : Env)
          (cacheDel [("music", 555)] "music") "music").2.1,
       "status" :: (getApplicationSink (⟨fun _ => "Clients:\n pid 777 z", fun _ => some "777"⟩ : Env)
          (cacheDel [("music", 555)] "music") "music").2.2) :=
  vc_C6 (⟨fun _ => "Clients:\n pid 777 z", fun _ => some "777"⟩ : Env)
    [("music", 555)] "music" 555 rfl (by decide)

/-- C1: evaluation of `adjustVolume` on a `ProcessSink`.  It always issues
exactly one pid-scoped `set-volume` invocation and never reads the current
volume, but the argument it carries is the string `0.0` ++ `|d|` ++ sign, so
for `d = 10` the invocation carries `0.010+` — a fraction denoting a
1-percent increment under the §6 contract (`0.05+` = 5 percent), not the
claimed 10 percent. -/
theorem vc_C1 (env : Env) (d : Int) :
    adjustVolume env "PID:1234" d =
      (.ok (), ["set-volume --pid 1234 0.0" ++ natStr d.natAbs ++ (if 0 ≤ d then "+" else "-")]) ∧
    adjustVolume env "PID:1234" 10 = (.ok (), ["set-volume --pid 1234 0.010+"]) ∧
    parseFloatJS "0.010".data = some (mkRat 10 1000) ∧
    (mkRat 10 1000) * 100 = 1 ∧ (1 : ℚ) ≠ 10 := by
  refine ⟨rfl, rfl, by decide, by norm_num [Rat.mkRat_eq_div], by norm_num⟩

/-- C3: `adjustVolume` on the default sink is read–clamp–write: whenever the
volume read succeeds with `c`, the call issues exactly the `get-volume` read
followed by one absolute `set-volume` of `clamp(c + d, 0, 100)`; in
particular at 95 percent a `+10` adjustment writes `1.00`, the §6 tool then
holds 100 hundredths, and the subsequent `getVolume` returns exactly 100. -/
theorem vc_C3 :
    (∀ (env : Env) (d c : Int),
      (getVolume env "@DEFAULT_AUDIO_SINK@").1 = .ok (some c) →
      adjustVolume env "@DEFAULT_AUDIO_SINK@" d =
        (.ok (), ["get-volume @DEFAULT_AUDIO_SINK@",
                  "set-volume @DEFAULT_AUDIO_SINK@ " ++ formatFrac2 (max 0 (min 100 (c + d))).toNat])) ∧
    adjustVolume (toolEnv 95) "@DEFAULT_AUDIO_SINK@" 10 =
      (.ok (), ["get-volume @DEFAULT_AUDIO_SINK@", "set-volume @DEFAULT_AUDIO_SINK@ 1.00"]) ∧
    runCmds 95 (adjustVolume (toolEnv 95) "@DEFAULT_AUDIO_SINK@" 10).2 = 100 ∧
    getVolume (toolEnv (runCmds 95 (adjustVolume (toolEnv 95) "@DEFAULT_AUDIO_SINK@" 10).2))
        "@DEFAULT_AUDIO_SINK@" =
      (.ok (some 100), ["get-volume @DEFAULT_AUDIO_SINK@"]) := by
  have hp : isPidBased "@DEFAULT_AUDIO_SINK@" = false := by decide
  have hgen : ∀ (env : Env) (d c : Int),
      (getVolume env "@DEFAULT_AUDIO_SINK@").1 = .ok (some c) →
      adjustVolume env "@DEFAULT_AUDIO_SINK@" d =
        (.ok (), ["get-volume @DEFAULT_AUDIO_SINK@",
                  "set-volume @DEFAULT_AUDIO_SINK@ " ++ formatFrac2 (max 0 (min 100 (c + d))).toNat]) := by
    intro env d c h
    simp only [adjustVolume, hp, Bool.false_eq_true, if_false, h, Option.map_some',
      Option.map_some, setVolume, getVolume_snd env _ hp, clamp_clamp]
    rfl
  have h95 : getVolume (toolEnv 95) "@DEFAULT_AUDIO_SINK@" =
      (.ok (some 95), ["get-volume @DEFAULT_AUDIO_SINK@"]) :=
    getVolume_eval (toolEnv 95) "@DEFAULT_AUDIO_SINK@" "0.95".data (mkRat 95 100) 95
      (by decide) (by decide) (by decide) (by norm_num [jsRound, Rat.mkRat_eq_div])
  have hadj : adjustVolume (toolEnv 95) "@DEFAULT_AUDIO_SINK@" 10 =
      (.ok (), ["get-volume @DEFAULT_AUDIO_SINK@", "set-volume @DEFAULT_AUDIO_SINK@ 1.00"]) := by
    have := hgen (toolEnv 95) 10 95 (by rw [h95])
    simpa using this
  refine ⟨hgen, hadj, ?_, ?_⟩
  · rw [hadj]; decide
  · rw [hadj]
    exact getVolume_eval (toolEnv 100) "@DEFAULT_AUDIO_SINK@" "1.00".data (mkRat 100 100) 100
      (by decide) (by decide) (by decide) (by norm_num [jsRound, Rat.mkRat_eq_div])

/-- Witness for C3 at the concrete §6 tool sitting at 50 hundredths with
delta `+7`: the read returns 50, and the write carries `0.57`. -/
theorem vc_C3_witness :
    adjustVolume (toolEnv 50) "@DEFAULT_AUDIO_SINK@" 7 =
      (.ok (), ["get-volume @DEFAULT_AUDIO_SINK@",
                "set-volume @DEFAULT_AUDIO_SINK@ " ++ formatFrac2 (max 0 (min 100 ((50 : Int) + 7))).toNat]) :=
  vc_C3.1 (toolEnv 50) 7 50
    (by rw [getVolume_eval (toolEnv 50) "@DEFAULT_AUDIO_SINK@" "0.50".data (mkRat 50 100) 50
          (by decide) (by decide) (by decide) (by norm_num [jsRound, Rat.mkRat_eq_div])])

/-- C8: `getVolume` on a non-PID sink clamps any parsed fraction above `1.0`
down to the 100 ceiling instead of rejecting it, and fails with the parse
error exactly when the response does not match the `Volume: <fraction>`
pattern. -/
theorem vc_C8 (env : Env) (sinkId : String) (hp : isPidBased sinkId = false) :
    (∀ (tok : List Char) (q : ℚ),
      volToken (execWpctlOut env ("get-volume " ++ sinkId)) = some tok →
      parseFloatJS tok = some q → 1 < q →
      getVolume env sinkId = (.ok (some 100), ["get-volume " ++ sinkId])) ∧
    (volToken (execWpctlOut env ("get-volume " ++ sinkId)) = none →
      getVolume env sinkId =
        (.error (.parseError ("Could not parse volume from: " ++
            execWpctlOut env ("get-volume " ++ sinkId))), ["get-volume " ++ sinkId])) := by
  constructor
  · intro tok q htok hq h1
    refine getVolume_eval env sinkId tok q 100 hp htok hq ?_
    have h100 : (100 : Int) ≤ jsRound (q * 100) := by
      rw [jsRound, Int.le_floor]
      push_cast
      linarith
    omega
  · intro hnone
    simp only [getVolume, hp, Bool.false_eq_true, if_false, hnone]

/-- Witness for C8: an over-amplified `Volume: 1.50` response yields 100,
and a `garbage` response yields the parse error. -/
theorem vc_C8_witness :
    getVolume (⟨fun _ => "Volume: 1.50", fun _ => none⟩ : Env) "@DEFAULT_AUDIO_SINK@" =
      (.ok (some 100), ["get-volume @DEFAULT_AUDIO_SINK@"]) ∧
    getVolume (⟨fun _ => "garbage", fun _ => none⟩ : Env) "@DEFAULT_AUDIO_SINK@" =
      (.error (.parseError "Could not parse volume from: garbage"),
       ["get-volume @DEFAULT_AUDIO_SINK@"]) :=
  ⟨(vc_C8 (⟨fun _ => "Volume: 1.50", fun _ => none⟩ : Env) "@DEFAULT_AUDIO_SINK@" (by decide)).1
      "1.50".data (mkRat 150 100) (by decide) (by decide) (by decide),
   (vc_C8 (⟨fun _ => "garbage", fun _ => none⟩ : Env) "@DEFAULT_AUDIO_SINK@" (by decide)).2
      (by decide)⟩

/-! C2 machinery: a declarative characterisation of whole-word matching and
of the lines scanned while a tracked section is active. -/

/-- Last character of a list, falling back to `prev` for the empty list. -/
def lastOr (prev : Option Char) : List Char → Option Char
  | [] => prev
  | c :: cs => lastOr (some c) cs

/-- Declarative whole-word occurrence: `l` splits as `l₁ ++ w ++ l₂` where
the character ending `l₁` (if any) and the character starting `l₂` (if any)
are not word characters. -/
def WholeWordIn (w l : List Char) : Prop :=
  ∃ l₁ l₂, l = l₁ ++ w ++ l₂ ∧ boundaryOkB (lastOr none l₁) = true ∧ afterOkB l₂ = true

/-- The lines a `findMatchingPidInWpctl` scan over `lines`, started with
section flags `inC`/`inS`, examines for pid occurrences — i.e. the lines
reached while the clients or sink-inputs section is active, following the
same section-tracking rules. -/
def activeSectionLinesAux (inC inS : Bool) : List String → List String
  | [] => []
  | line :: rest =>
      if containsStr line "Clients:" then activeSectionLinesAux true false rest
      else if containsStr line "Sink Inputs:" then activeSectionLinesAux false true rest
      else if (inC || inS) && startsUpperAfterSpaces line
              && !containsStr line "Clients" && !containsStr line "Sink Inputs" then
        activeSectionLinesAux false false rest
      else if inC || inS then line :: activeSectionLinesAux inC inS rest
      else activeSectionLinesAux inC inS rest

/-- Lines of a status report scanned while a tracked section is active. -/
def activeSectionLines (out : String) : List String :=
  activeSectionLinesAux false false (splitLines out)

theorem hasWholeWordAux_iff (w : List Char) (hw : w ≠ []) :
    ∀ (l : List Char) (prev : Option Char),
      hasWholeWordAux w prev l = true ↔
        ∃ l₁ l₂, l = l₁ ++ w ++ l₂ ∧ boundaryOkB (lastOr prev l₁) = true ∧ afterOkB l₂ = true := by
  intro l
  induction l with
  | nil =>
      intro prev
      constructor
      · intro h
        exact absurd h (by simp [hasWholeWordAux])
      · rintro ⟨l₁, l₂, hsplit, -, -⟩
        obtain ⟨h2, -⟩ := List.append_eq_nil.mp hsplit.symm
        exact absurd (List.append_eq_nil.mp h2).2 hw
  | cons c cs ih =>
      intro prev
      constructor
      · intro h
        rw [hasWholeWordAux] at h
        rcases Bool.or_eq_true_iff.mp h with hfst | hrec
        · obtain ⟨⟨hb, hpre⟩, haf⟩ :
              (boundaryOkB prev = true ∧ w.isPrefixOf (c :: cs) = true)
                ∧ afterOkB ((c :: cs).drop w.length) = true := by
            simpa [Bool.and_eq_true] using hfst
          obtain ⟨t, ht⟩ := List.isPrefixOf_iff_prefix.mp hpre
          refine ⟨[], t, by simp [← ht], hb, ?_⟩
          rw [← ht, List.drop_left] at haf
          exact haf
        · obtain ⟨l₁, l₂, h1, h2, h3⟩ := (ih (some c)).mp hrec
          exact ⟨c :: l₁, l₂, by simp [h1], h2, h3⟩
      · rintro ⟨l₁, l₂, hsplit, hb, haf⟩
        rw [hasWholeWordAux]
        refine Bool.or_eq_true_iff.mpr ?_
        cases l₁ with
        | nil =>
            left
            simp only [List.nil_append] at hsplit
            have hpre : w.isPrefixOf (c :: cs) = true :=
              List.isPrefixOf_iff_prefix.mpr ⟨l₂, hsplit.symm⟩
            have hdrop : (c :: cs).drop w.length = l₂ := by
              rw [hsplit]; exact List.drop_left _ _
            simp only [Bool.and_eq_true]
            exact ⟨⟨hb, hpre⟩, by rw [hdrop]; exact haf⟩
        | cons c' l₁' =>
            right
            injection hsplit with hc hcs
            subst hc
            exact (ih (some c)).mpr ⟨l₁', l₂, hcs, hb, haf⟩

theorem hasWholeWord_iff (w l : List Char) (hw : w ≠ []) :
    hasWholeWord w l = true ↔ WholeWordIn w l :=
  hasWholeWordAux_iff w hw l none

theorem natStr_data_ne_nil (n : Nat) : (natStr n).data ≠ [] := by
  unfold natStr
  split
  · decide
  · rename_i h
    cases n with
    | zero => exact absurd rfl h
    | succ m => simp [natStrAux]

theorem intStr_data_ne_nil (p : Int) : (intStr p).data ≠ [] := by
  cases p with
  | ofNat n => exact natStr_data_ne_nil n
  | negSucc n => exact fun h => List.cons_ne_nil '-' (natStr (n + 1)).data h

theorem findMatchingAux_single_iff (p : Int) (lines : List String) :
    ∀ (inC inS : Bool),
      findMatchingAux [p] inC inS lines = some p ↔
        ∃ line ∈ activeSectionLinesAux inC inS lines,
          hasWholeWord (intStr p).data line.data = true := by
  induction lines with
  | nil => intro inC inS; simp [findMatchingAux, activeSectionLinesAux]
  | cons line rest ih =>
      intro inC inS
      simp only [findMatchingAux, activeSectionLinesAux]
      by_cases h1 : containsStr line "Clients:" = true
      · rw [if_pos h1, if_pos h1]; exact ih true false
      rw [if_neg h1, if_neg h1]
      by_cases h2 : containsStr line "Sink Inputs:" = true
      · rw [if_pos h2, if_pos h2]; exact ih false true
      rw [if_neg h2, if_neg h2]
      by_cases h3 : ((inC || inS) && startsUpperAfterSpaces line
          && !containsStr line "Clients" && !containsStr line "Sink Inputs") = true
      · rw [if_pos h3, if_pos h3]; exact ih false false
      rw [if_neg h3, if_neg h3]
      by_cases h4 : (inC || inS) = true
      · rw [if_pos h4, if_pos h4]
        by_cases hw : hasWholeWord (intStr p).data line.data = true
        · have hf : [p].find? (fun pid => hasWholeWord (intStr pid).data line.data) = some p := by
            simp [List.find?, hw]
          simp only [hf]
          constructor
          · intro _
            exact ⟨line, List.mem_cons_self _ _, hw⟩
          · intro _
            trivial
        · have hw' : hasWholeWord (intStr p).data line.data = false :=
            Bool.not_eq_true _ ▸ Bool.of_not_eq_true hw
          have hf : [p].find? (fun pid => hasWholeWord (intStr pid).data line.data) = none := by
            simp [List.find?, hw']
          simp only [hf]
          rw [ih inC inS]
          constructor
          · rintro ⟨l', hm, hword⟩
            exact ⟨l', List.mem_cons_of_mem _ hm, hword⟩
          · rintro ⟨l', hm, hword⟩
            rcases List.mem_cons.mp hm with rfl | hm'
            · exact absurd hword hw
            · exact ⟨l', hm', hword⟩
      · rw [if_neg h4, if_neg h4]
        exact ih inC inS

theorem findMatchingPid_single_iff (p : Int) (out : String) :
    findMatchingPidInWpctl [p] out = some p ↔
      ∃ line ∈ activeSectionLines out, WholeWordIn (intStr p).data line.data := by
  rw [findMatchingPidInWpctl, activeSectionLines, findMatchingAux_single_iff]
  constructor <;> rintro ⟨line, hmem, hword⟩
  · exact ⟨line, hmem, (hasWholeWord_iff _ _ (intStr_data_ne_nil p)).mp hword⟩
  · exact ⟨line, hmem, (hasWholeWord_iff _ _ (intStr_data_ne_nil p)).mpr hword⟩

/-- C2: status matching is section-scoped with whole-word pid tokens — a
single candidate pid is returned exactly when it occurs, flanked by word
boundaries, on a line scanned while the clients or sink-inputs section is
active; concretely, `pid 4821` under a `Clients:` header matches, while the
same pid placed after an intervening top-level header (which ends section
tracking) does not. -/
theorem vc_C2 :
    (∀ (p : Int) (out : String),
      findMatchingPidInWpctl [p] out = some p ↔
        ∃ line ∈ activeSectionLines out, WholeWordIn (intStr p).data line.data) ∧
    findMatchingPidInWpctl [4821]
        "Clients:\n pid 4821, application.name = \"Music Player\"" = some 4821 ∧
    findMatchingPidInWpctl [4821]
        "Clients:\n pid 1111, application.name = \"Other\"\nVideo:\n pid 4821, application.name = \"Music Player\"" = none :=
  ⟨findMatchingPid_single_iff, by decide, by decide⟩

end VolumeKnobs
